import Mathlib

/-!
# flash2: deployment and interaction scripts of FlashloanMaximizerV3

Shallow embedding of `deploy_flashloan.js` and `flashloanInteraction.js`.

A script is a sequence of awaited calls against the network, console output
and a process exit.  The network is a record of answers
(`FlashloanInteraction.Chain`, `DeployFlashloan.Chain`): every awaited call
either returns a value or rejects with a thrown value.  Running a script
yields the trace of what it did, in order.
-/

namespace Flash2

/-! ## JavaScript values the scripts handle -/

abbrev Address := String

/-- Fields of a thrown object that the catch block of the interaction script reads.
A property that is absent reads as `undefined`, here `none`. -/
structure JsError where
  message : Option String
  code : Option String
  transaction : Option String
  error : Option String
deriving DecidableEq, Repr

/-- Value carried by a rejected promise or a `throw`: `undefined`/`null`, on
which a property read throws, or an object. -/
inductive Thrown where
  | nullish
  | error (e : JsError)
deriving DecidableEq, Repr

/-- The `TypeError` raised by a property read on `undefined`. -/
def typeError (msg : String) : Thrown :=
  .error { message := some msg, code := none, transaction := none, error := none }

/-- Signer object; the scripts read its `address`. -/
structure Signer where
  address : Address
deriving DecidableEq, Repr

/-- Positional argument of a contract constructor. -/
inductive Arg where
  | addr (a : Address)
  | num (n : Nat)
deriving DecidableEq, Repr

/-- Values printed by `console.log` and `console.error`. -/
inductive JsVal where
  | str (s : String)
  | num (n : Nat)
  | bool (b : Bool)
  | undefined
  | words (w : List Nat)
  | liquidity (hasLiquidity : Bool) (reason : String)
  | thrown (t : Thrown)
deriving DecidableEq, Repr

/-- Awaited calls, with the arguments they are issued with. -/
inductive Call where
  | getSigners
  | getContractAt (name : String) (address : Address)
  | getPoolInfo (tokenIn tokenOut : Address)
  | checkPoolLiquidity (tokenIn tokenOut : Address)
  | checkAllowances (tokenIn tokenOut : Address)
  | getBalance (account : Address)
  | getGasPrice
  | executeArbitrage (tokenIn tokenOut : Address) (amountIn minAmountOut : Nat)
      (gasLimit gasPrice : Nat)
  | txWait
  | getContractFactory (name : String)
  | deploy (args : List Arg)
  | deployTransactionWait
deriving DecidableEq, Repr

/-- One observable step of a script.  `call c none` is a call that returned,
`call c (some t)` a call that rejected with `t`. -/
inductive Event where
  | call (c : Call) (threw : Option Thrown)
  | consoleLog (args : List JsVal)
  | consoleError (args : List JsVal)
  | processExit (code : Nat)
deriving DecidableEq, Repr

/-- Trace so far, and how the async function settled. -/
abbrev Result := List Event × Except Thrown Unit

/-- Form `await f(...)` inside a `try`: a rejection leaves the block with the
thrown value, a return continues with the value. -/
def await {α : Type} (tr : List Event) (c : Call) (r : Except Thrown α)
    (k : List Event → α → Result) : Result :=
  match r with
  | .error t => (tr ++ [.call c (some t)], .error t)
  | .ok a => k (tr ++ [.call c none]) a

/-- Reading `x.message` and the like for printing. -/
def optStr : Option String → JsVal
  | none => .undefined
  | some s => .str s

/-- JavaScript truthiness of a property that is absent or a string. -/
def truthy : Option String → Bool
  | none => false
  | some s => s != ""

/-! ## ethers.utils: decimal strings and fixed-point amounts -/

/-- Value of a string of decimal digits; `none` if a character is not a digit. -/
def digitsToNat : List Char → Option Nat
  | [] => some 0
  | cs => cs.foldl (fun acc c =>
      match acc with
      | none => none
      | some n => if 48 ≤ c.toNat ∧ c.toNat ≤ 57 then some (n * 10 + (c.toNat - 48)) else none)
    (some 0)

/-- Drop the zeros at the end, keeping one digit. -/
def stripTrailingZeros (ds : List Char) : List Char :=
  match (ds.reverse.dropWhile (fun c => c == '0')).reverse with
  | [] => ['0']
  | r => r

/-- Model of `ethers.utils.parseUnits(value, decimals)` on non-negative decimal
strings: whole part times `10^decimals` plus the fraction padded on the right
to `decimals` digits; a malformed string or a fraction longer than `decimals`
throws (`none`). -/
def parseUnits (value : String) (decimals : Nat) : Option Nat :=
  let cs := value.toList
  let whole := cs.takeWhile (fun c => c != '.')
  let rest := cs.dropWhile (fun c => c != '.')
  let fraction := if rest.isEmpty then ['0'] else stripTrailingZeros (rest.drop 1)
  if cs.isEmpty ∨ cs = ['.'] ∨ decimals < fraction.length ∧ fraction ≠ ['0'] then none
  else
    match digitsToNat whole, digitsToNat fraction with
    | some w, some f => some (w * 10 ^ decimals + f * 10 ^ (decimals - fraction.length))
    | _, _ => none

/-- Model of `ethers.utils.parseEther(value)`: `parseUnits(value, 18)`. -/
def parseEther (value : String) : Option Nat := parseUnits value 18

/-- Model of `ethers.utils.formatUnits(value, decimals)`: whole part, a dot, and
the fraction on `decimals` digits with the zeros at its end removed. -/
def formatUnits (value : Nat) (decimals : Nat) : String :=
  let whole := toString (value / 10 ^ decimals)
  let digits := (toString (value % 10 ^ decimals)).toList
  let padded := List.replicate (decimals - digits.length) '0' ++ digits
  if decimals = 0 then whole
  else whole ++ "." ++ String.mk (stripTrailingZeros padded)

/-- Model of `ethers.utils.formatEther(value)`: `formatUnits(value, 18)`. -/
def formatEther (value : Nat) : String := formatUnits value 18

/-! ## flashloanInteraction.js -/

namespace FlashloanInteraction

/-- Sepolia WETH address. -/
def WETH : Address := "0x7b79995e5f793A07Bc00c21412e50Ecae098E7f9"

/-- Sepolia USDC address. -/
def USDC : Address := "0xda9d4f9b69ac6C22e444eD9aF0CfC043b7a7f53f"

/-- Address of the deployed FlashloanMaximizerV3 the script attaches to. -/
def contractAddress : Address := "0x5Dc90dC3fd600FeF94B5e76e987da452Cce99FCE"

/-- Transaction response of `executeArbitrage`: its hash and what `tx.wait()`
settles to. -/
structure Tx where
  hash : String
  wait : Except Thrown (List Nat)

/-- Answers of the network to the calls of the interaction script.

`getBalance` is `ethers.provider.getBalance(account)`: the ether balance of the
account, in wei.  `balanceOf token owner` is the ERC-20 balance of `owner` in
`token`; it is part of the chain state, and no call of the script reads it. -/
structure Chain where
  getSigners : Except Thrown (List Signer)
  getContractAt : String → Address → Except Thrown Unit
  getPoolInfo : Address → Address → Except Thrown (List Nat)
  checkPoolLiquidity : Address → Address → Except Thrown (Bool × String)
  checkAllowances : Address → Address → Except Thrown (List Nat)
  getBalance : Address → Except Thrown Nat
  balanceOf : Address → Address → Nat
  getGasPrice : Except Thrown Nat
  executeArbitrage : Address → Address → Nat → Nat → Nat → Nat → Except Thrown Tx

/-- The `try` block of `main` (lines 10-60). -/
def mainTry (c : Chain) : Result :=
  await [] .getSigners c.getSigners fun tr signers =>
  match signers.head? with
  | none => (tr, .error (typeError "Cannot read properties of undefined (reading address)"))
  | some deployer =>
  let tr := tr ++ [.consoleLog [.str "Interacting with contracts using the account:",
    .str deployer.address]]
  await tr (.getContractAt "FlashloanMaximizerV3" contractAddress)
    (c.getContractAt "FlashloanMaximizerV3" contractAddress) fun tr _ =>
  let tokenIn := WETH
  let tokenOut := USDC
  await tr (.getPoolInfo tokenIn tokenOut) (c.getPoolInfo tokenIn tokenOut) fun tr poolInfo =>
  let tr := tr ++ [.consoleLog [.str "Pool information:", .words poolInfo]]
  await tr (.checkPoolLiquidity tokenIn tokenOut) (c.checkPoolLiquidity tokenIn tokenOut)
    fun tr liq =>
  let hasLiquidity := liq.1
  let reason := liq.2
  let tr := tr ++ [.consoleLog [.str "Liquidity check:", .liquidity hasLiquidity reason]]
  if !hasLiquidity then
    (tr ++ [.consoleLog [.str "Cannot proceed: ", .str reason]], .ok ())
  else
  await tr (.checkAllowances tokenIn tokenOut) (c.checkAllowances tokenIn tokenOut)
    fun tr allowances =>
  let tr := tr ++ [.consoleLog [.str "Current allowances:", .words allowances]]
  await tr (.getBalance deployer.address) (c.getBalance deployer.address) fun tr wethBalance =>
  let tr := tr ++ [.consoleLog [.str ("WETH Balance: " ++ formatUnits wethBalance 18)]]
  match parseEther "1" with
  | none => (tr, .error (typeError "invalid decimal value"))
  | some oneEther =>
  if wethBalance < oneEther then
    (tr ++ [.consoleLog [.str "Insufficient WETH balance"]], .ok ())
  else
  match parseEther "1", parseUnits "1800" 6 with
  | some amountIn, some minAmountOut =>
    await tr .getGasPrice c.getGasPrice fun tr gasPrice =>
    await tr (.executeArbitrage tokenIn tokenOut amountIn minAmountOut 1000000 gasPrice)
      (c.executeArbitrage tokenIn tokenOut amountIn minAmountOut 1000000 gasPrice) fun tr tx =>
    let tr := tr ++ [.consoleLog [.str "Transaction hash:", .str tx.hash]]
    await tr .txWait tx.wait fun tr receipt =>
    (tr ++ [.consoleLog [.str "Transaction confirmed:", .words receipt]], .ok ())
  | _, _ => (tr, .error (typeError "invalid decimal value"))

/-- The `catch` block of `main` (lines 62-71): print the fields of the error,
then `throw error`.  Reading `error.message` on `undefined` or `null` throws
a `TypeError` before the second `console.error` runs. -/
def mainCatch (tr : List Event) (error : Thrown) : Result :=
  let tr := tr ++ [.consoleError [.str "Detailed error information:"]]
  match error with
  | .nullish =>
    (tr, .error (typeError "Cannot read properties of undefined (reading message)"))
  | .error e =>
    let tr := tr ++ [.consoleError [.str "Message:", optStr e.message],
      .consoleError [.str "Code:", optStr e.code],
      .consoleError [.str "Transaction:", optStr e.transaction]]
    let tr := if truthy e.error then
        tr ++ [.consoleError [.str "Provider error:", optStr e.error]]
      else tr
    (tr, .error error)

/-- The async function `main` (lines 8-72): the `try` block, and the `catch`
block if it threw. -/
def main (c : Chain) : Result :=
  match mainTry c with
  | (tr, .ok ()) => (tr, .ok ())
  | (tr, .error t) => mainCatch tr t

/-- What a run of the script leaves behind. -/
structure Run where
  trace : List Event
  settled : Except Thrown Unit
  exitCode : Nat

/-- The handlers of lines 74-79, `.then(exit 0).catch(log; exit 1)`, applied to
the settled `main()`. -/
def thenExit (r : Result) : Run :=
  match r with
  | (tr, .ok ()) =>
    { trace := tr ++ [.processExit 0], settled := .ok (), exitCode := 0 }
  | (tr, .error t) =>
    { trace := tr ++ [.consoleError [.thrown t], .processExit 1], settled := .error t,
      exitCode := 1 }

/-- The script (lines 74-79). -/
def script (c : Chain) : Run := thenExit (main c)

/-- What the `catch` block and the exit handlers do once the `try` block has
settled with `r`. -/
def epilogue (r : Except Thrown Unit) : Run :=
  thenExit (match r with
    | .ok () => ([], .ok ())
    | .error t => mainCatch [] t)

/-- A chain on which every call returns and the pool has no liquidity. -/
def dryChain : Chain where
  getSigners := .ok [{ address := "0xf39Fd6e51aad88F6F4ce6aB8827279cffFb92266" }]
  getContractAt := fun _ _ => .ok ()
  getPoolInfo := fun _ _ => .ok [0]
  checkPoolLiquidity := fun _ _ => .ok (false, "No pool")
  checkAllowances := fun _ _ => .ok [0, 0]
  getBalance := fun _ => .ok (2 * 10 ^ 18)
  balanceOf := fun _ _ => 0
  getGasPrice := .ok 1000000007
  executeArbitrage := fun _ _ _ _ _ _ => .ok { hash := "0xabc", wait := .ok [1] }

/-- A chain on which every call returns, the pool has liquidity, and the
deployer holds 2 ether and no WETH. -/
def liquidChain : Chain :=
  { dryChain with checkPoolLiquidity := fun _ _ => .ok (true, "") }

/-- The error a node answers a reverted transaction with. -/
def revertError : JsError :=
  { message := some "execution reverted", code := some "CALL_EXCEPTION",
    transaction := some "0xabc", error := some "revert" }

/-- A chain on which `executeArbitrage` rejects. -/
def revertingChain : Chain :=
  { liquidChain with executeArbitrage := fun _ _ _ _ _ _ => .error (.error revertError) }

end FlashloanInteraction

/-! ## deploy_flashloan.js -/

namespace DeployFlashloan

/-- The object literal `ADDRESSES` (lines 12-17). -/
structure Addresses where
  SWAP_ROUTER : Address
  QUOTER : Address
  UNISWAP_FACTORY : Address
  AAVE_POOL_PROVIDER : Address

/-- Venue addresses the script deploys with. -/
def ADDRESSES : Addresses where
  SWAP_ROUTER := "0xE592427A0AEce92De3Edee1F18E0157C05861564"
  QUOTER := "0xb27308f9F90D607463bb33eA1BeBb41C27CE5AB6"
  UNISWAP_FACTORY := "0x1F98431c8aD98523631AE4a59f267346ea31F984"
  AAVE_POOL_PROVIDER := "0x0496275d34753A48320CA58103d5220d394FF77F"

/-- Contract object returned by `Flashloan.deploy`: its address and what
`deployTransaction.wait()` settles to. -/
structure Deployed where
  address : Address
  deployTransactionWait : Except Thrown (List Nat)

/-- Answers of the network to the calls of the deploy script. -/
structure Chain where
  getSigners : Except Thrown (List Signer)
  getBalance : Address → Except Thrown Nat
  getContractFactory : String → Except Thrown Unit
  deploy : List Arg → Except Thrown Deployed

/-- Argument list of `Flashloan.deploy(...)` (lines 28-37). -/
def deployArgs (deployer : Signer) : List Arg :=
  [.addr deployer.address,
   .addr ADDRESSES.SWAP_ROUTER,
   .addr ADDRESSES.QUOTER,
   .addr ADDRESSES.UNISWAP_FACTORY,
   .addr ADDRESSES.AAVE_POOL_PROVIDER,
   .num 50,
   .num 5000000,
   .num (20 * 10 ^ 9)]

/-- The template literal of line 46. -/
def verifyCommand (deployedAddress : Address) (deployer : Signer) : String :=
  "npx hardhat verify --network sepolia " ++ deployedAddress ++ " " ++ deployer.address ++ " "
    ++ ADDRESSES.SWAP_ROUTER ++ " " ++ ADDRESSES.QUOTER ++ " " ++ ADDRESSES.UNISWAP_FACTORY
    ++ " " ++ ADDRESSES.AAVE_POOL_PROVIDER ++ " 50 5000000 20000000000"

/-- The `try` block of `main` (lines 6-46). -/
def mainTry (c : Chain) : Result :=
  await [] .getSigners c.getSigners fun tr signers =>
  match signers.head? with
  | none => (tr, .error (typeError "Cannot read properties of undefined (reading address)"))
  | some deployer =>
  let tr := tr ++ [.consoleLog [.str "Deploying contracts with the account:",
    .str deployer.address]]
  await tr (.getBalance deployer.address) (c.getBalance deployer.address) fun tr balance =>
  let tr := tr ++ [.consoleLog [.str "Account balance:", .str (formatEther balance)],
    .consoleLog [.str "\nUsing addresses:"],
    .consoleLog [.str "Uniswap V3 SwapRouter:", .str ADDRESSES.SWAP_ROUTER],
    .consoleLog [.str "Uniswap V3 Quoter:", .str ADDRESSES.QUOTER],
    .consoleLog [.str "Uniswap V3 Factory:", .str ADDRESSES.UNISWAP_FACTORY],
    .consoleLog [.str "AAVE Pool Provider:", .str ADDRESSES.AAVE_POOL_PROVIDER]]
  await tr (.getContractFactory "FlashloanMaximizerV3")
    (c.getContractFactory "FlashloanMaximizerV3") fun tr _ =>
  let tr := tr ++ [.consoleLog [.str "\nDeploying FlashloanMaximizerV3 contract..."]]
  await tr (.deploy (deployArgs deployer)) (c.deploy (deployArgs deployer)) fun tr flashloan =>
  let tr := tr ++ [.consoleLog [.str "Waiting for deployment..."]]
  await tr .deployTransactionWait flashloan.deployTransactionWait fun tr _ =>
  let deployedAddress := flashloan.address
  (tr ++ [.consoleLog [.str "\nFlashloanMaximizerV3 deployed to:", .str deployedAddress],
    .consoleLog [.str "\nVerify with:"],
    .consoleLog [.str (verifyCommand deployedAddress deployer)]], .ok ())

/-- What a run of the script leaves behind. -/
structure Run where
  trace : List Event
  exitCode : Nat

/-- The script: `main` with its `catch` block (lines 47-51), which prints the
error and exits with 1, then `main().then(exit 0)` (lines 54-59). -/
def script (c : Chain) : Run :=
  match mainTry c with
  | (tr, .ok ()) => { trace := tr ++ [.processExit 0], exitCode := 0 }
  | (tr, .error t) =>
    { trace := tr ++ [.consoleError [.str "\nDeployment failed!"], .consoleError [.thrown t],
        .processExit 1],
      exitCode := 1 }

/-- A chain on which every call of the deploy script returns. -/
def sepolia : Chain where
  getSigners := .ok [{ address := "0xf39Fd6e51aad88F6F4ce6aB8827279cffFb92266" }]
  getBalance := fun _ => .ok (10 ^ 18)
  getContractFactory := fun _ => .ok ()
  deploy := fun _ =>
    .ok { address := "0x5Dc90dC3fd600FeF94B5e76e987da452Cce99FCE", deployTransactionWait := .ok [1] }

end DeployFlashloan

/-! ## Reading a trace -/

/-- The awaited calls of a trace, in order. -/
def calls (tr : List Event) : List Call :=
  tr.filterMap fun e =>
    match e with
    | .call c _ => some c
    | _ => none

/-- The awaited calls of a trace that rejected, with what they threw. -/
def rejections (tr : List Event) : List (Call × Thrown) :=
  tr.filterMap fun e =>
    match e with
    | .call c (some t) => some (c, t)
    | _ => none

/-- Everything in a trace but the `console.log` lines. -/
def withoutLogs (tr : List Event) : List Event :=
  tr.filter fun e =>
    match e with
    | .consoleLog _ => false
    | _ => true

/-- Name of the function a call goes to. -/
def Call.name : Call → String
  | .getSigners => "getSigners"
  | .getContractAt .. => "getContractAt"
  | .getPoolInfo .. => "getPoolInfo"
  | .checkPoolLiquidity .. => "checkPoolLiquidity"
  | .checkAllowances .. => "checkAllowances"
  | .getBalance .. => "getBalance"
  | .getGasPrice => "getGasPrice"
  | .executeArbitrage .. => "executeArbitrage"
  | .txWait => "tx.wait"
  | .getContractFactory .. => "getContractFactory"
  | .deploy .. => "deploy"
  | .deployTransactionWait => "deployTransaction.wait"

/-- Calls of `executeArbitrage`, the only call that submits a transaction. -/
def Call.isExecuteArbitrage : Call → Bool
  | .executeArbitrage .. => true
  | _ => false

/-- Calls that go to the contract, the provider or the transaction, as
opposed to the `ethers` helpers `getSigners` and `getContractAt`. -/
def Call.isContractOrProvider : Call → Bool
  | .getSigners => false
  | .getContractAt .. => false
  | .getContractFactory .. => false
  | _ => true

/-- Calls the interaction script places behind its liquidity check. -/
def Call.isBehindLiquidityGate : Call → Bool
  | .checkAllowances .. => true
  | .getBalance .. => true
  | .getGasPrice => true
  | .executeArbitrage .. => true
  | .txWait => true
  | _ => false

/-- Rendering of a constructor argument inside a template literal. -/
def Arg.render : Arg → String
  | .addr a => a
  | .num n => toString n

/-! ## FlashloanMaximizerV3: the execution core

The scripts call a contract whose source is not among the files above.  Its
behaviour is taken from the specification (sections 3, 4.5, 4.6, 6, 7 and 9).
-/

namespace ArbitrageExecutor

/-- Modelled from the spec: `SlippageGuard.minimumAcceptable` of the contract
FlashloanMaximizerV3 (section 4.5), `amountOutExpected * (10000 - toleranceBps)
/ 10000` with integer (floor) division. -/
def minimumAcceptable (amountOutExpected toleranceBps : Nat) : Nat :=
  amountOutExpected * (10000 - toleranceBps) / 10000

/-- Modelled from the spec: result of `SlippageGuard.enforce` (section 4.5). -/
inductive Enforced where
  | Success
  | SlippageExceeded
deriving DecidableEq, Repr

/-- Modelled from the spec: `SlippageGuard.enforce(actualAmountOut,
minimumAcceptable)` of the contract (section 4.5): an output below the floor
is a breach. -/
def enforce (actualAmountOut minimumAcceptable : Nat) : Enforced :=
  if actualAmountOut < minimumAcceptable then .SlippageExceeded else .Success

/-- Modelled from the spec: the configuration struct the contract is
constructed with (section 9), fields in the order the spec enumerates them. -/
structure Configuration where
  ownerAddress : Address
  swapVenueAddress : Address
  quoterAddress : Address
  poolRegistryAddress : Address
  lendingFacilityAddress : Address
  slippageToleranceBps : Nat
  gasLimit : Nat
  gasPriceCeiling : Nat
deriving DecidableEq, Repr

/-- Modelled from the spec: the constructor of the contract, reading its
positional arguments into the configuration struct of section 9. -/
def Configuration.ofArgs : List Arg → Option Configuration
  | [.addr owner, .addr venue, .addr quoter, .addr registry, .addr facility,
      .num tolerance, .num gasLimit, .num gasPrice] =>
    some { ownerAddress := owner, swapVenueAddress := venue, quoterAddress := quoter,
           poolRegistryAddress := registry, lendingFacilityAddress := facility,
           slippageToleranceBps := tolerance, gasLimit := gasLimit,
           gasPriceCeiling := gasPrice }
  | _ => none

/-- Modelled from the spec: pre-flight rejections of the contract (sections
3, 4.6 and 7), raised before a loan is received. -/
inductive Reason where
  | InvalidParameters
  | MalformedRoute
  | LoanFacilityUnavailable
deriving DecidableEq, Repr

/-- Modelled from the spec: causes of a rollback inside the atomic unit of the
contract (sections 4.6 and 7). -/
inductive Cause where
  | InsufficientAllowance
  | InsufficientLiquidity
  | SwapReverted
  | SlippageExceeded
  | Unprofitable
  | RepaymentRejected
deriving DecidableEq, Repr

/-- Modelled from the spec: `ExecutionOutcome` of the contract (section 3). -/
inductive ExecutionOutcome where
  | Success (profit : Nat)
  | Rejected (reason : Reason)
  | Reverted (cause : Cause)
deriving DecidableEq, Repr

/-- Modelled from the spec: states of the ArbitrageExecutor state machine of
the contract (section 4.6). -/
inductive State where
  | Idle
  | LoanReceived
  | Swapping
  | Settling
  | Committed
  | RolledBack
deriving DecidableEq, Repr

/-- Modelled from the spec: `LoanObligation` of the contract (section 3). -/
structure LoanObligation where
  principal : Nat
  fee : Nat
deriving DecidableEq, Repr

/-- Modelled from the spec: the state an execution of the contract can touch
(sections 4.6 and 5): the liquidity of the lending facility, what the executor
holds, what the venue has taken in and paid out, what the owner has received,
and the open loan obligation. -/
structure World where
  facility : Nat
  executor : Nat
  venueIn : Nat
  venueOut : Nat
  owner : Nat
  obligation : Option LoanObligation
deriving DecidableEq, Repr

/-- Modelled from the spec: one hop of the route the contract executes
(section 4.6): the quote for it and the venue's `swapExactIn(amountIn,
minAmountOut)`, which returns the output or reverts (section 6). -/
structure Hop where
  amountOutExpected : Nat
  swapExactIn : Nat → Nat → Option Nat

/-- Modelled from the spec: what the collaborators of the contract answer
during one attempt (sections 4.2, 4.3 and 6), with the configured tolerance
and route. -/
structure Environment where
  slippageToleranceBps : Nat
  fee : Nat
  allowanceOk : Bool
  liquidityOk : Bool
  route : List Hop
  repayAccepted : Bool

/-- Modelled from the spec: the ArbitrageExecutor of the contract in the
middle of an attempt (section 4.6): its state, the world, the world as it was
when the atomic unit began, the hops still to run, the proceeds so far and the
outcome once there is one. -/
structure Machine where
  state : State
  world : World
  snapshot : World
  pending : List Hop
  proceeds : Nat
  outcome : Option ExecutionOutcome

/-- Modelled from the spec: the transition of the contract to `RolledBack`
(section 4.6): the effects of the atomic unit are undone. -/
def rollback (m : Machine) (cause : Cause) : Machine :=
  { m with state := .RolledBack, world := m.snapshot, outcome := some (.Reverted cause) }

/-- Modelled from the spec: one transition of the ArbitrageExecutor state
machine of the contract (section 4.6), for the attempt
`executeArbitrage(tokenIn, tokenOut, amountIn, minAmountOut)`. -/
def step (env : Environment) (amountIn : Nat) (m : Machine) : Machine :=
  match m.outcome with
  | some _ => m
  | none =>
    match m.state with
    | .Idle =>
      if amountIn = 0 ∨ 10000 ≤ env.slippageToleranceBps then
        { m with outcome := some (.Rejected .InvalidParameters) }
      else if env.route.isEmpty then
        { m with outcome := some (.Rejected .MalformedRoute) }
      else if m.world.facility < amountIn then
        { m with outcome := some (.Rejected .LoanFacilityUnavailable) }
      else
        { m with
          state := .LoanReceived
          world := { m.world with
            facility := m.world.facility - amountIn
            executor := m.world.executor + amountIn
            obligation := some { principal := amountIn, fee := env.fee } } }
    | .LoanReceived =>
      if !env.allowanceOk then rollback m .InsufficientAllowance
      else if !env.liquidityOk then rollback m .InsufficientLiquidity
      else { m with state := .Swapping, pending := env.route, proceeds := amountIn }
    | .Swapping =>
      match m.pending with
      | hop :: rest =>
        let floor := minimumAcceptable hop.amountOutExpected env.slippageToleranceBps
        match hop.swapExactIn m.proceeds floor with
        | none => rollback m .SwapReverted
        | some amountOut =>
          let swapped : Machine :=
            { m with
              world := { m.world with
                executor := m.world.executor - m.proceeds + amountOut
                venueIn := m.world.venueIn + m.proceeds
                venueOut := m.world.venueOut + amountOut }
              pending := rest
              proceeds := amountOut }
          match enforce amountOut floor with
          | .SlippageExceeded => rollback swapped .SlippageExceeded
          | .Success => swapped
      | [] =>
        if m.proceeds < amountIn + env.fee then rollback m .Unprofitable
        else { m with state := .Settling }
    | .Settling =>
      if !env.repayAccepted then rollback m .RepaymentRejected
      else
        let profit := m.proceeds - amountIn - env.fee
        { m with
          state := .Committed
          world := { m.world with
            facility := m.world.facility + amountIn + env.fee
            executor := m.world.executor - m.proceeds
            owner := m.world.owner + profit
            obligation := none }
          outcome := some (.Success profit) }
    | .Committed => m
    | .RolledBack => m

/-- Modelled from the spec: the executor of the contract before an attempt,
`Idle` on the world `w` (section 4.6). -/
def idle (w : World) : Machine :=
  { state := .Idle, world := w, snapshot := w, pending := [], proceeds := 0, outcome := none }

/-- Modelled from the spec: `n` transitions of the state machine of the
contract (section 4.6). -/
def run (env : Environment) (amountIn : Nat) : Nat → Machine → Machine
  | 0, m => m
  | n + 1, m => run env amountIn n (step env amountIn m)

/-- Modelled from the spec: `executeArbitrage(tokenIn, tokenOut, amountIn,
minAmountOut)` of the contract as one atomic unit (sections 4.6 and 5): the
state machine run from `Idle` to its end, one transition to receive the loan,
one to re-validate, one per hop, one to check the proceeds and one to settle. -/
def executeArbitrage (env : Environment) (w : World) (_tokenIn _tokenOut : Address)
    (amountIn _minAmountOut : Nat) : Machine :=
  run env amountIn (env.route.length + 4) (idle w)

/-- World of the examples: a facility with 5000 units to lend. -/
def fundedWorld : World :=
  { facility := 5000, executor := 0, venueIn := 0, venueOut := 0, owner := 0,
    obligation := none }

/-- Environment of the examples: two hops, the second of which pays out 994
where 1000 were quoted at 50 basis points of tolerance. -/
def slippingEnvironment : Environment :=
  { slippageToleranceBps := 50, fee := 9, allowanceOk := true, liquidityOk := true,
    route := [{ amountOutExpected := 1800, swapExactIn := fun _ _ => some 1800 },
              { amountOutExpected := 1000, swapExactIn := fun _ _ => some 994 }],
    repayAccepted := true }

/-- Transitions a machine is at most away from an outcome. -/
def stepsLeft (env : Environment) (m : Machine) : Nat :=
  match m.outcome with
  | some _ => 0
  | none =>
    match m.state with
    | .Idle => env.route.length + 4
    | .LoanReceived => env.route.length + 3
    | .Swapping => m.pending.length + 2
    | .Settling => 1
    | .Committed => 0
    | .RolledBack => 0

/-- What holds of the executor at every moment of an attempt begun on `w`. -/
structure Inv (w : World) (m : Machine) : Prop where
  snapshot_eq : m.snapshot = w
  idle_world : m.state = .Idle → m.world = w
  rolledBack_world : m.state = .RolledBack → m.world = w
  rolledBack_iff : m.state = .RolledBack ↔ ∃ cause, m.outcome = some (.Reverted cause)
  committed_iff : m.state = .Committed ↔ ∃ profit, m.outcome = some (.Success profit)
  rejected_idle : ∀ reason, m.outcome = some (.Rejected reason) → m.state = .Idle

end ArbitrageExecutor

/-! ## Facts shared by the proofs -/

theorem parseEther_one : parseEther "1" = some (10 ^ 18) := by rfl

theorem parseUnits_1800 : parseUnits "1800" 6 = some (1800 * 10 ^ 6) := by rfl

theorem calls_withoutLogs (tr : List Event) : calls (withoutLogs tr) = calls tr := by
  induction tr with
  | nil => rfl
  | cons e tr ih =>
    cases e <;> simp_all [calls, withoutLogs, List.filter_cons]

/-! ## flashloanInteraction.js: what every run does -/

namespace FlashloanInteraction

theorem script_trace_split (c : Chain) :
    (script c).trace = (mainTry c).1 ++ (epilogue (mainTry c).2).trace := by
  unfold script main epilogue
  rcases mainTry c with ⟨tr, t | _⟩
  · cases t
    · simp [mainCatch, thenExit]
    · simp only [mainCatch]
      split <;> simp [thenExit]
  · simp [thenExit]

theorem script_settled_split (c : Chain) :
    (script c).settled = (epilogue (mainTry c).2).settled := by
  unfold script main epilogue
  rcases mainTry c with ⟨tr, t | _⟩
  · cases t <;> simp [mainCatch, thenExit]
  · simp [thenExit]

theorem script_exitCode_split (c : Chain) :
    (script c).exitCode = (epilogue (mainTry c).2).exitCode := by
  unfold script main epilogue
  rcases mainTry c with ⟨tr, t | _⟩
  · cases t <;> simp [mainCatch, thenExit]
  · simp [thenExit]

theorem epilogue_events (r : Except Thrown Unit) :
    ∀ e ∈ (epilogue r).trace, (∃ a, e = Event.consoleError a) ∨ (∃ n, e = Event.processExit n) := by
  unfold epilogue
  rcases r with t | _
  · cases t
    · simp [mainCatch, thenExit]
    · simp only [mainCatch]
      split <;> simp [thenExit]
  · simp [thenExit]

theorem call_mem_script (c : Chain) (k : Call) (r : Option Thrown) :
    Event.call k r ∈ (script c).trace ↔ Event.call k r ∈ (mainTry c).1 := by
  rw [script_trace_split, List.mem_append]
  constructor
  · rintro (h | h)
    · exact h
    · rcases epilogue_events _ _ h with ⟨a, ha⟩ | ⟨n, hn⟩ <;> simp at *
  · exact Or.inl

theorem log_mem_script (c : Chain) (a : List JsVal) :
    Event.consoleLog a ∈ (script c).trace ↔ Event.consoleLog a ∈ (mainTry c).1 := by
  rw [script_trace_split, List.mem_append]
  constructor
  · rintro (h | h)
    · exact h
    · rcases epilogue_events _ _ h with ⟨a, ha⟩ | ⟨n, hn⟩ <;> simp at *
  · exact Or.inl

theorem calls_script (c : Chain) : calls (script c).trace = calls (mainTry c).1 := by
  rw [script_trace_split]
  have h := epilogue_events (mainTry c).2
  generalize (epilogue (mainTry c).2).trace = tail at h
  unfold calls
  rw [List.filterMap_append]
  suffices hs : List.filterMap (fun e => match e with
      | Event.call c _ => some c
      | _ => none) tail = [] by rw [hs, List.append_nil]
  rw [List.filterMap_eq_nil_iff]
  intro e he
  rcases h e he with ⟨a, rfl⟩ | ⟨n, rfl⟩ <;> rfl

theorem settled_ok_iff (c : Chain) : (script c).settled = .ok () ↔ (mainTry c).2 = .ok () := by
  rw [script_settled_split]
  unfold epilogue
  rcases (mainTry c).2 with t | _
  · cases t <;> simp [mainCatch, thenExit]
  · simp [thenExit]

theorem exitCode_zero_iff (c : Chain) : (script c).exitCode = 0 ↔ (mainTry c).2 = .ok () := by
  rw [script_exitCode_split]
  unfold epilogue
  rcases (mainTry c).2 with t | _
  · cases t <;> simp [mainCatch, thenExit]
  · simp [thenExit]

theorem exitCode_of_error (c : Chain) (t : Thrown) (h : (mainTry c).2 = .error t) :
    (script c).exitCode = 1 := by
  rw [script_exitCode_split, h]
  unfold epilogue
  cases t <;> simp [mainCatch, thenExit]

/-- A call that rejected is what the `try` block threw. -/
theorem mainTry_rejected (c : Chain) (k : Call) (t : Thrown)
    (h : Event.call k (some t) ∈ (mainTry c).1) : (mainTry c).2 = .error t := by
  revert h
  simp only [mainTry, await, parseEther_one, parseUnits_1800]
  repeat' split
  all_goals simp_all

/-- In the `try` block, a call of `executeArbitrage` comes after
`checkPoolLiquidity` and then `checkAllowances` have returned. -/
theorem mainTry_order (c : Chain) (tokenIn tokenOut : Address)
    (amountIn minAmountOut gasLimit gasPrice : Nat) (r : Option Thrown)
    (h : Event.call (.executeArbitrage tokenIn tokenOut amountIn minAmountOut gasLimit gasPrice) r
      ∈ (mainTry c).1) :
    List.Sublist [Event.call (.checkPoolLiquidity WETH USDC) none,
      Event.call (.checkAllowances WETH USDC) none,
      Event.call (.executeArbitrage tokenIn tokenOut amountIn minAmountOut gasLimit gasPrice) r]
      (mainTry c).1 := by
  revert h
  simp only [mainTry, await, parseEther_one, parseUnits_1800]
  repeat' split
  all_goals simp only [List.nil_append, List.append_assoc, List.cons_append, List.mem_cons,
    List.mem_singleton, List.not_mem_nil, Event.call.injEq, Call.executeArbitrage.injEq,
    reduceCtorEq, false_and, and_false, or_false, false_or, false_implies, imp_self]
  all_goals
    rintro ⟨⟨rfl, rfl, rfl, rfl, rfl, rfl⟩, rfl⟩
    repeat (first | exact List.Sublist.slnil | apply List.Sublist.cons₂ | apply List.Sublist.cons)

/-- C8: the awaited calls of a run, in order, are a prefix of getSigners,
getContractAt, getPoolInfo, checkPoolLiquidity, checkAllowances, getBalance,
getGasPrice, executeArbitrage, tx.wait; those to the contract, the provider
and the transaction are a prefix of the last seven; and a call of
`executeArbitrage` comes after `checkPoolLiquidity` and then
`checkAllowances(tokenIn, tokenOut)` have returned, in the same run. -/
theorem allowances_queried_before_execution (c : Chain) :
    List.IsPrefix ((calls (script c).trace).map Call.name)
      ["getSigners", "getContractAt", "getPoolInfo", "checkPoolLiquidity", "checkAllowances",
        "getBalance", "getGasPrice", "executeArbitrage", "tx.wait"] ∧
    List.IsPrefix (((calls (script c).trace).filter Call.isContractOrProvider).map Call.name)
      ["getPoolInfo", "checkPoolLiquidity", "checkAllowances", "getBalance", "getGasPrice",
        "executeArbitrage", "tx.wait"] ∧
    (∀ tokenIn tokenOut amountIn minAmountOut gasLimit gasPrice r,
      Event.call (.executeArbitrage tokenIn tokenOut amountIn minAmountOut gasLimit gasPrice) r
        ∈ (script c).trace →
      List.Sublist [Event.call (.checkPoolLiquidity WETH USDC) none,
        Event.call (.checkAllowances WETH USDC) none,
        Event.call (.executeArbitrage tokenIn tokenOut amountIn minAmountOut gasLimit gasPrice) r]
        (script c).trace) := by
  refine ⟨?_, ?_, ?_⟩
  · rw [calls_script]
    simp only [mainTry, await, parseEther_one, parseUnits_1800]
    repeat' split
    all_goals simp [calls, Call.name]
  · rw [calls_script]
    simp only [mainTry, await, parseEther_one, parseUnits_1800]
    repeat' split
    all_goals simp [calls, Call.name, Call.isContractOrProvider]
  · intro tokenIn tokenOut amountIn minAmountOut gasLimit gasPrice r h
    rw [call_mem_script] at h
    rw [script_trace_split]
    exact (mainTry_order c _ _ _ _ _ _ r h).trans (List.sublist_append_left _ _)

/-- On the chain with liquidity, `executeArbitrage` is reached, after the two
checks have returned. -/
theorem allowances_queried_before_execution_witness :
    List.Sublist [Event.call (.checkPoolLiquidity WETH USDC) none,
      Event.call (.checkAllowances WETH USDC) none,
      Event.call (.executeArbitrage WETH USDC (10 ^ 18) (1800 * 10 ^ 6) 1000000 1000000007) none]
      (script liquidChain).trace :=
  (allowances_queried_before_execution liquidChain).2.2 WETH USDC (10 ^ 18) (1800 * 10 ^ 6)
    1000000 1000000007 none (by decide)

/-- C10: two runs that differ only in what `getPoolInfo` and `checkAllowances`
return agree on everything but their `console.log` lines: the same calls with
the same arguments, the same exit code; and every `executeArbitrage` call has
the arguments (WETH, USDC, 10^18, 1800 * 10^6, gasLimit 1000000) and the gas
price the provider reported. -/
theorem pool_info_and_allowances_only_logged (c : Chain)
    (getPoolInfo checkAllowances : Address → Address → Except Thrown (List Nat))
    (poolInfo poolInfo2 allowances allowances2 : List Nat)
    (hp : c.getPoolInfo WETH USDC = .ok poolInfo)
    (ha : c.checkAllowances WETH USDC = .ok allowances)
    (hp2 : getPoolInfo WETH USDC = .ok poolInfo2)
    (ha2 : checkAllowances WETH USDC = .ok allowances2) :
    withoutLogs (script { c with getPoolInfo := getPoolInfo,
                                 checkAllowances := checkAllowances }).trace
      = withoutLogs (script c).trace ∧
    calls (script { c with getPoolInfo := getPoolInfo,
                           checkAllowances := checkAllowances }).trace
      = calls (script c).trace ∧
    (script { c with getPoolInfo := getPoolInfo,
                     checkAllowances := checkAllowances }).exitCode = (script c).exitCode ∧
    (∀ k ∈ calls (script c).trace, k.isExecuteArbitrage = true →
      ∃ gasPrice, c.getGasPrice = .ok gasPrice ∧
        k = .executeArbitrage WETH USDC (10 ^ 18) (1800 * 10 ^ 6) 1000000 gasPrice) := by
  have key : (mainTry { c with getPoolInfo := getPoolInfo,
                               checkAllowances := checkAllowances }).2 = (mainTry c).2 ∧
      withoutLogs (mainTry { c with getPoolInfo := getPoolInfo,
                                    checkAllowances := checkAllowances }).1
        = withoutLogs (mainTry c).1 := by
    simp only [mainTry, await, parseEther_one, parseUnits_1800, hp, ha, hp2, ha2]
    repeat' split
    all_goals simp_all [withoutLogs]
  refine ⟨?_, ?_, ?_, ?_⟩
  · rw [script_trace_split, script_trace_split, key.1]
    simp only [withoutLogs, List.filter_append] at key ⊢
    rw [key.2]
  · rw [calls_script, calls_script]
    rw [← calls_withoutLogs, key.2, calls_withoutLogs]
  · rw [script_exitCode_split, script_exitCode_split, key.1]
  · rw [calls_script]
    simp only [mainTry, await, parseEther_one, parseUnits_1800, hp, ha]
    repeat' split
    all_goals simp_all [calls, Call.isExecuteArbitrage]

/-- The chain with liquidity, with other pool information and allowances. -/
theorem pool_info_and_allowances_only_logged_witness :
    calls (script { liquidChain with getPoolInfo := fun _ _ => .ok [7, 7],
                                     checkAllowances := fun _ _ => .ok [] }).trace
      = calls (script liquidChain).trace :=
  (pool_info_and_allowances_only_logged liquidChain (fun _ _ => .ok [7, 7]) (fun _ _ => .ok [])
    [0] [7, 7] [0, 0] [] rfl rfl rfl rfl).2.1

/-- C4 at its failing input: on a chain where the deployer holds 2 ether and
no WETH, the WETH balance is below 10^18 and the script calls
`executeArbitrage` all the same, without printing "Insufficient WETH
balance"; the trace is the same whatever the WETH balances are. -/
theorem weth_guard_reads_ether_balance :
    liquidChain.balanceOf WETH "0xf39Fd6e51aad88F6F4ce6aB8827279cffFb92266" < 10 ^ 18 ∧
    (calls (script liquidChain).trace).filter Call.isExecuteArbitrage
      = [.executeArbitrage WETH USDC (10 ^ 18) (1800 * 10 ^ 6) 1000000 1000000007] ∧
    Event.consoleLog [.str "Insufficient WETH balance"] ∉ (script liquidChain).trace ∧
    (∀ balanceOf, (script { liquidChain with balanceOf := balanceOf }).trace
      = (script liquidChain).trace) :=
  ⟨by decide, by decide, by decide, fun _ => rfl⟩

/-- C2: when `checkPoolLiquidity` has returned `hasLiquidity = false`, with any
reason, `main` returns, the process exits with 0, and none of
`checkAllowances`, `getBalance`, `getGasPrice`, `executeArbitrage` is called;
and a run that calls `executeArbitrage` is one in which `checkPoolLiquidity`
returned `hasLiquidity = true`. -/
theorem liquidity_gate (c : Chain) :
    (∀ reason, c.checkPoolLiquidity WETH USDC = .ok (false, reason) →
      Event.call (.checkPoolLiquidity WETH USDC) none ∈ (script c).trace →
        (script c).settled = .ok () ∧ (script c).exitCode = 0 ∧
        Event.consoleLog [.str "Cannot proceed: ", .str reason] ∈ (script c).trace ∧
        (calls (script c).trace).filter Call.isBehindLiquidityGate = []) ∧
    ((calls (script c).trace).filter Call.isExecuteArbitrage ≠ [] →
      ∃ reason, c.checkPoolLiquidity WETH USDC = .ok (true, reason) ∧
        Event.call (.checkPoolLiquidity WETH USDC) none ∈ (script c).trace) := by
  constructor
  · intro reason h
    rw [settled_ok_iff, exitCode_zero_iff, log_mem_script, call_mem_script, calls_script]
    simp only [mainTry, await, parseEther_one, parseUnits_1800, h]
    repeat' split
    all_goals simp_all [calls, Call.isBehindLiquidityGate]
  · rw [call_mem_script, calls_script]
    simp only [mainTry, await, parseEther_one, parseUnits_1800]
    repeat' split
    all_goals simp_all [calls, Call.isExecuteArbitrage]
    all_goals exact ⟨_, Prod.ext (by assumption) rfl⟩

/-- On the chain without liquidity the script stops at the gate; on the chain
with liquidity it reaches `executeArbitrage`. -/
theorem liquidity_gate_witness :
    ((script dryChain).settled = .ok () ∧ (script dryChain).exitCode = 0 ∧
      Event.consoleLog [.str "Cannot proceed: ", .str "No pool"] ∈ (script dryChain).trace ∧
      (calls (script dryChain).trace).filter Call.isBehindLiquidityGate = []) ∧
    (∃ reason, liquidChain.checkPoolLiquidity WETH USDC = .ok (true, reason) ∧
      Event.call (.checkPoolLiquidity WETH USDC) none ∈ (script liquidChain).trace) :=
  ⟨(liquidity_gate dryChain).1 "No pool" rfl (by decide),
   (liquidity_gate liquidChain).2 (by decide)⟩

/-- C7: when an awaited call of a run throws an error object `e`, the `catch`
block prints it, `main` rethrows the same `e` and the process exits with 1;
any rejected call makes the exit code 1; and a run that exits with 0 had no
rejected call and ended at the confirmation or at one of the two early
returns. -/
theorem failures_rethrown (c : Chain) :
    (∀ k e, Event.call k (some (.error e)) ∈ (script c).trace →
      (main c).2 = .error (.error e) ∧ (script c).settled = .error (.error e) ∧
      (script c).exitCode = 1 ∧
      Event.consoleError [.str "Message:", optStr e.message] ∈ (script c).trace ∧
      Event.consoleError [.thrown (.error e)] ∈ (script c).trace) ∧
    (∀ k t, Event.call k (some t) ∈ (script c).trace → (script c).exitCode = 1) ∧
    ((script c).exitCode = 0 →
      rejections (script c).trace = [] ∧
      ((∃ receipt, Event.consoleLog [.str "Transaction confirmed:", .words receipt]
          ∈ (script c).trace) ∨
        (∃ reason, Event.consoleLog [.str "Cannot proceed: ", .str reason]
          ∈ (script c).trace) ∨
        Event.consoleLog [.str "Insufficient WETH balance"] ∈ (script c).trace)) := by
  refine ⟨?_, ?_, ?_⟩
  · intro k e h
    rw [call_mem_script] at h
    have ht := mainTry_rejected c k _ h
    rw [script_settled_split, script_exitCode_split, script_trace_split, ht]
    refine ⟨?_, ?_, ?_, ?_, ?_⟩
    · unfold main
      rcases hm : mainTry c with ⟨tr, r⟩
      rw [hm] at ht
      simp only at ht
      subst ht
      simp [mainCatch]
    · simp [epilogue, mainCatch, thenExit]
    · simp [epilogue, mainCatch, thenExit]
    · apply List.mem_append_right
      simp only [epilogue, mainCatch]
      split <;> simp [thenExit]
    · apply List.mem_append_right
      simp only [epilogue, mainCatch]
      split <;> simp [thenExit]
  · intro k t h
    rw [call_mem_script] at h
    exact exitCode_of_error c t (mainTry_rejected c k t h)
  · intro h
    rw [exitCode_zero_iff] at h
    constructor
    · rw [script_trace_split, h]
      revert h
      simp only [mainTry, await, parseEther_one, parseUnits_1800]
      repeat' split
      all_goals simp_all [rejections, epilogue, thenExit]
    · simp only [log_mem_script]
      revert h
      simp only [mainTry, await, parseEther_one, parseUnits_1800]
      repeat' split
      all_goals simp_all

/-- On the chain whose `executeArbitrage` rejects, the error is printed and
rethrown and the process exits with 1; the chain without liquidity exits
with 0 at the first early return. -/
theorem failures_rethrown_witness :
    ((main revertingChain).2 = .error (.error revertError) ∧
      (script revertingChain).settled = .error (.error revertError) ∧
      (script revertingChain).exitCode = 1 ∧
      Event.consoleError [.str "Message:", optStr revertError.message]
        ∈ (script revertingChain).trace ∧
      Event.consoleError [.thrown (.error revertError)] ∈ (script revertingChain).trace) ∧
    rejections (script dryChain).trace = [] :=
  ⟨(failures_rethrown revertingChain).1
      (.executeArbitrage WETH USDC (10 ^ 18) (1800 * 10 ^ 6) 1000000 1000000007) revertError
      (by decide),
   ((failures_rethrown dryChain).2.2 (by decide)).1⟩

end FlashloanInteraction

/-! ## deploy_flashloan.js: the constructor arguments and the verify command -/

namespace DeployFlashloan

theorem deploy_call_mem_script (c : Chain) (k : Call) (r : Option Thrown) :
    Event.call k r ∈ (script c).trace ↔ Event.call k r ∈ (mainTry c).1 := by
  unfold script
  rcases mainTry c with ⟨tr, t | _⟩ <;> simp

theorem deploy_log_mem_script (c : Chain) (a : List JsVal) :
    Event.consoleLog a ∈ (script c).trace ↔ Event.consoleLog a ∈ (mainTry c).1 := by
  unfold script
  rcases mainTry c with ⟨tr, t | _⟩ <;> simp

theorem deploy_exitCode_zero_iff (c : Chain) : (script c).exitCode = 0 ↔ (mainTry c).2 = .ok () := by
  unfold script
  rcases mainTry c with ⟨tr, t | _⟩ <;> simp

theorem deploy_calls_script (c : Chain) : calls (script c).trace = calls (mainTry c).1 := by
  unfold script
  rcases mainTry c with ⟨tr, t | _⟩ <;> simp [calls]

theorem rendered_numbers :
    " " ++ (toString 50 ++ (" " ++ (toString 5000000 ++ (" " ++ toString 20000000000))))
      = " 50 5000000 20000000000" := by
  decide

theorem verifyCommand_eq (deployedAddress : Address) (deployer : Signer) :
    verifyCommand deployedAddress deployer = "npx hardhat verify --network sepolia "
      ++ " ".intercalate (deployedAddress :: (deployArgs deployer).map Arg.render) := by
  simp only [verifyCommand, deployArgs, String.intercalate, String.intercalate.go, Arg.render,
    String.append_assoc, List.map_cons, List.map_nil, Nat.reducePow, Nat.reduceMul]
  rw [rendered_numbers]

/-- C5: every call of `Flashloan.deploy` carries exactly the eight arguments
(deployer.address, SWAP_ROUTER, QUOTER, UNISWAP_FACTORY, AAVE_POOL_PROVIDER,
50, 5000000, 20 * 10^9), which the constructor reads in the order of the
configuration struct; and the call is made once the calls before it have
returned, for every deployer address `getSigners` returns. -/
theorem deploy_configuration (c : Chain) :
    (∀ args r, Event.call (.deploy args) r ∈ (script c).trace →
      ∃ deployer rest, c.getSigners = .ok (deployer :: rest) ∧
        args = [.addr deployer.address, .addr ADDRESSES.SWAP_ROUTER, .addr ADDRESSES.QUOTER,
          .addr ADDRESSES.UNISWAP_FACTORY, .addr ADDRESSES.AAVE_POOL_PROVIDER,
          .num 50, .num 5000000, .num (20 * 10 ^ 9)] ∧
        args.length = 8 ∧
        ArbitrageExecutor.Configuration.ofArgs args = some
          { ownerAddress := deployer.address
            swapVenueAddress := ADDRESSES.SWAP_ROUTER
            quoterAddress := ADDRESSES.QUOTER
            poolRegistryAddress := ADDRESSES.UNISWAP_FACTORY
            lendingFacilityAddress := ADDRESSES.AAVE_POOL_PROVIDER
            slippageToleranceBps := 50
            gasLimit := 5000000
            gasPriceCeiling := 20 * 10 ^ 9 }) ∧
    (∀ deployer rest balance, c.getSigners = .ok (deployer :: rest) →
      c.getBalance deployer.address = .ok balance →
      c.getContractFactory "FlashloanMaximizerV3" = .ok () →
      Call.deploy (deployArgs deployer) ∈ calls (script c).trace) := by
  constructor
  · intro args r
    rw [deploy_call_mem_script]
    rcases hs : c.getSigners with t | (_ | ⟨deployer, rest⟩)
    all_goals simp only [mainTry, await, hs, List.head?]
    · simp
    · simp
    · repeat' split
      all_goals simp only [List.nil_append, List.append_assoc, List.cons_append, List.mem_cons,
        List.mem_singleton, List.not_mem_nil, Event.call.injEq, Call.deploy.injEq,
        reduceCtorEq, false_and, and_false, or_false, false_or, false_implies, imp_self]
      all_goals
        rintro ⟨rfl, rfl⟩
        exact ⟨deployer, rest, rfl, rfl, rfl, rfl⟩
  · intro deployer rest balance hs hb hf
    simp only [deploy_calls_script, mainTry, await, hs, hb, hf, List.head?]
    repeat' split
    all_goals simp [calls]

/-- A chain on which every call of the deploy script returns. -/
theorem deploy_configuration_witness :
    Call.deploy (deployArgs { address := "0xf39Fd6e51aad88F6F4ce6aB8827279cffFb92266" })
      ∈ calls (script sepolia).trace :=
  (deploy_configuration sepolia).2 _ [] (10 ^ 18) rfl rfl rfl

/-- C9: the verify command is the deployed address followed by the eight
arguments passed to `Flashloan.deploy`, in the same order and rendered with
the same values; its last word 20000000000 is the deployed gas price
20 * 10^9; and a run that exits with 0 has deployed with these arguments and
printed this command for the address the deployment returned. -/
theorem verify_command_lists_deploy_arguments (c : Chain) :
    (∀ deployedAddress deployer, verifyCommand deployedAddress deployer
      = "npx hardhat verify --network sepolia "
        ++ " ".intercalate (deployedAddress :: (deployArgs deployer).map Arg.render)) ∧
    (∀ deployer, (deployArgs deployer)[7]? = some (.num 20000000000)) ∧
    (20000000000 : Nat) = 20 * 10 ^ 9 ∧
    ((script c).exitCode = 0 →
      ∃ deployer flashloan, c.deploy (deployArgs deployer) = .ok flashloan ∧
        Event.call (.deploy (deployArgs deployer)) none ∈ (script c).trace ∧
        Event.consoleLog [.str (verifyCommand flashloan.address deployer)]
          ∈ (script c).trace) := by
  refine ⟨verifyCommand_eq, fun _ => rfl, by norm_num, ?_⟩
  rw [deploy_exitCode_zero_iff]
  simp only [deploy_call_mem_script, deploy_log_mem_script, mainTry, await]
  repeat' split
  all_goals simp only [reduceCtorEq, false_implies]
  all_goals
    intro _
    exact ⟨_, _, by assumption, by simp, by simp⟩

/-- The run on the chain where every call returns. -/
theorem verify_command_lists_deploy_arguments_witness :
    ∃ deployer flashloan, sepolia.deploy (deployArgs deployer) = .ok flashloan ∧
      Event.call (.deploy (deployArgs deployer)) none ∈ (script sepolia).trace ∧
      Event.consoleLog [.str (verifyCommand flashloan.address deployer)]
        ∈ (script sepolia).trace :=
  (verify_command_lists_deploy_arguments sepolia).2.2.2 (by decide)

end DeployFlashloan

/-! ## The parameters the two scripts supply -/

namespace FlashloanInteraction

/-- C6: the interaction script passes `amountIn = parseEther("1") = 10^18 > 0`
and `minAmountOut = parseUnits("1800", 6) = 1800 * 10^6` to `executeArbitrage`:
every such call of a run carries them, and the call is made with them once the
calls before it have returned with liquidity and a balance of at least 10^18.
The deploy script passes a slippage tolerance of 50 basis points to the
constructor: every `deploy` call of a run carries it as sixth argument, the
call is made once the calls before it have returned, and 50 lies in
[0, 10000) and is 0.5 percent. -/
theorem script_parameters_valid (c : Chain) (d : DeployFlashloan.Chain) :
    parseEther "1" = some (10 ^ 18) ∧ parseUnits "1800" 6 = some (1800 * 10 ^ 6) ∧
    (∀ tokenIn tokenOut amountIn minAmountOut gasLimit gasPrice,
      Call.executeArbitrage tokenIn tokenOut amountIn minAmountOut gasLimit gasPrice
        ∈ calls (script c).trace →
      some amountIn = parseEther "1" ∧ amountIn = 10 ^ 18 ∧ 0 < amountIn ∧
      some minAmountOut = parseUnits "1800" 6 ∧ minAmountOut = 1800 * 10 ^ 6 ∧
      0 ≤ minAmountOut) ∧
    (∀ deployer rest poolInfo reason allowances balance gasPrice,
      c.getSigners = .ok (deployer :: rest) →
      c.getContractAt "FlashloanMaximizerV3" contractAddress = .ok () →
      c.getPoolInfo WETH USDC = .ok poolInfo →
      c.checkPoolLiquidity WETH USDC = .ok (true, reason) →
      c.checkAllowances WETH USDC = .ok allowances →
      c.getBalance deployer.address = .ok balance → 10 ^ 18 ≤ balance →
      c.getGasPrice = .ok gasPrice →
      Call.executeArbitrage WETH USDC (10 ^ 18) (1800 * 10 ^ 6) 1000000 gasPrice
        ∈ calls (script c).trace) ∧
    (∀ args, Call.deploy args ∈ calls (DeployFlashloan.script d).trace →
      ∃ tolerance : Nat, args[5]? = some (.num tolerance) ∧ tolerance = 50 ∧
        0 ≤ tolerance ∧ tolerance < 10000 ∧ (tolerance : ℚ) / 10000 = 0.5 / 100) ∧
    (∀ deployer rest balance, d.getSigners = .ok (deployer :: rest) →
      d.getBalance deployer.address = .ok balance →
      d.getContractFactory "FlashloanMaximizerV3" = .ok () →
      ∃ args, Call.deploy args ∈ calls (DeployFlashloan.script d).trace ∧
        args[5]? = some (.num 50)) := by
  refine ⟨parseEther_one, parseUnits_1800, ?_, ?_, ?_, ?_⟩
  · rw [calls_script]
    simp only [mainTry, await, parseEther_one, parseUnits_1800]
    repeat' split
    all_goals simp_all [calls]
  · intro deployer rest poolInfo reason allowances balance gasPrice hs hc hp hl ha hb hbal hg
    have hlt : ¬ balance < 10 ^ 18 := by omega
    simp only [calls_script, mainTry, await, parseEther_one, parseUnits_1800, hs, hc, hp, hl,
      ha, hb, hg, hlt, List.head?, Bool.not_true, Bool.false_eq_true, if_false]
    repeat' split
    all_goals simp [calls]
  · intro args
    rw [DeployFlashloan.deploy_calls_script]
    simp only [DeployFlashloan.mainTry, await]
    repeat' split
    all_goals simp only [calls, List.nil_append, List.append_assoc, List.cons_append,
      List.filterMap_cons, List.filterMap_nil, List.mem_cons, List.mem_singleton,
      List.not_mem_nil, Call.deploy.injEq, reduceCtorEq, or_false, false_or, false_implies]
    all_goals
      rintro rfl
      exact ⟨50, rfl, rfl, by norm_num, by norm_num, by norm_num⟩
  · intro deployer rest balance hs hb hf
    refine ⟨DeployFlashloan.deployArgs deployer, ?_, rfl⟩
    simp only [DeployFlashloan.deploy_calls_script, DeployFlashloan.mainTry, await, hs, hb, hf,
      List.head?]
    repeat' split
    all_goals simp [calls]

/-- On the chain with liquidity the interaction script calls
`executeArbitrage` with 10^18 and 1800 * 10^6, and on the chain where every
call returns the deploy script calls `deploy` with 50 as sixth argument. -/
theorem script_parameters_valid_witness :
    Call.executeArbitrage WETH USDC (10 ^ 18) (1800 * 10 ^ 6) 1000000 1000000007
      ∈ calls (script liquidChain).trace ∧
    (some (10 ^ 18) = parseEther "1" ∧ 10 ^ 18 = 10 ^ 18 ∧ 0 < 10 ^ 18 ∧
      some (1800 * 10 ^ 6) = parseUnits "1800" 6 ∧ 1800 * 10 ^ 6 = 1800 * 10 ^ 6 ∧
      0 ≤ 1800 * 10 ^ 6) ∧
    (∃ args, Call.deploy args ∈ calls (DeployFlashloan.script DeployFlashloan.sepolia).trace ∧
      args[5]? = some (.num 50)) :=
  ⟨(script_parameters_valid liquidChain DeployFlashloan.sepolia).2.2.2.1
      { address := "0xf39Fd6e51aad88F6F4ce6aB8827279cffFb92266" } [] [0] "" [0, 0]
      (2 * 10 ^ 18) 1000000007 rfl rfl rfl rfl rfl rfl (by decide) rfl,
   (script_parameters_valid liquidChain DeployFlashloan.sepolia).2.2.1
      WETH USDC (10 ^ 18) (1800 * 10 ^ 6) 1000000 1000000007 (by decide),
   (script_parameters_valid liquidChain DeployFlashloan.sepolia).2.2.2.2.2
      { address := "0xf39Fd6e51aad88F6F4ce6aB8827279cffFb92266" } [] (10 ^ 18) rfl rfl rfl⟩

end FlashloanInteraction

/-! ## The execution core: all-or-nothing and the slippage floor -/

namespace ArbitrageExecutor

theorem inv_idle (w : World) : Inv w (idle w) := by
  constructor <;> simp [idle]

theorem inv_step (env : Environment) (amountIn : Nat) (w : World) (m : Machine)
    (h : Inv w m) : Inv w (step env amountIn m) := by
  obtain ⟨h1, h2, h3, h4, h5, h6⟩ := h
  unfold step
  split
  · exact ⟨h1, h2, h3, h4, h5, h6⟩
  · rename_i hnone
    simp only [hnone] at h4 h5 h6
    split
    all_goals (repeat' split)
    all_goals (try dsimp only)
    all_goals (repeat' split)
    all_goals constructor
    all_goals simp_all [rollback]

theorem inv_run (env : Environment) (amountIn : Nat) (w : World) (n : Nat) (m : Machine)
    (h : Inv w m) : Inv w (run env amountIn n m) := by
  induction n generalizing m with
  | zero => exact h
  | succ n ih => exact ih _ (inv_step env amountIn w m h)

theorem stepsLeft_step (env : Environment) (amountIn : Nat) (w : World) (m : Machine)
    (h : Inv w m) (hnone : m.outcome = none) :
    stepsLeft env (step env amountIn m) + 1 ≤ stepsLeft env m := by
  obtain ⟨h1, h2, h3, h4, h5, h6⟩ := h
  simp only [hnone] at h4 h5 h6
  unfold step
  simp only [hnone]
  split
  all_goals (repeat' split)
  all_goals simp_all [stepsLeft, rollback]

theorem run_outcome (env : Environment) (amountIn : Nat) (w : World) (n : Nat) (m : Machine)
    (h : Inv w m) (hn : stepsLeft env m ≤ n) :
    ∃ o, (run env amountIn n m).outcome = some o := by
  induction n generalizing m with
  | zero =>
    obtain ⟨h1, h2, h3, h4, h5, h6⟩ := h
    cases ho : m.outcome with
    | some o => exact ⟨o, by simpa [run] using ho⟩
    | none =>
      exfalso
      simp only [ho] at h4 h5
      revert hn
      unfold stepsLeft
      simp only [ho]
      split <;> simp_all
  | succ n ih =>
    cases ho : m.outcome with
    | some o =>
      have hs : step env amountIn m = m := by unfold step; simp [ho]
      have : stepsLeft env m = 0 := by unfold stepsLeft; simp [ho]
      simp only [run, hs]
      exact ih m h (by omega)
    | none =>
      have := stepsLeft_step env amountIn w m h ho
      simp only [run]
      exact ih _ (inv_step env amountIn w m h) (by omega)

/-- C1: an attempt started by `executeArbitrage(tokenIn, tokenOut, amountIn,
minAmountOut)` always reaches an outcome; whenever the executor is in
`RolledBack`, at the end of the attempt or after any number of transitions and
whatever the cause, the state is the state before the attempt; and an attempt
after which the state differs from the state before it ended in `Committed`. -/
theorem all_or_nothing (env : Environment) (w : World) (tokenIn tokenOut : Address)
    (amountIn minAmountOut : Nat) :
    (∃ o, (executeArbitrage env w tokenIn tokenOut amountIn minAmountOut).outcome = some o) ∧
    ((executeArbitrage env w tokenIn tokenOut amountIn minAmountOut).state = .RolledBack →
      (executeArbitrage env w tokenIn tokenOut amountIn minAmountOut).world = w) ∧
    (∀ cause, (executeArbitrage env w tokenIn tokenOut amountIn minAmountOut).outcome
        = some (.Reverted cause) →
      (executeArbitrage env w tokenIn tokenOut amountIn minAmountOut).state = .RolledBack ∧
      (executeArbitrage env w tokenIn tokenOut amountIn minAmountOut).world = w) ∧
    (∀ n, (run env amountIn n (idle w)).state = .RolledBack →
      (run env amountIn n (idle w)).world = w) ∧
    ((executeArbitrage env w tokenIn tokenOut amountIn minAmountOut).world ≠ w →
      (executeArbitrage env w tokenIn tokenOut amountIn minAmountOut).state = .Committed) := by
  have hinv : ∀ n, Inv w (run env amountIn n (idle w)) :=
    fun n => inv_run env amountIn w n (idle w) (inv_idle w)
  have hend := hinv (env.route.length + 4)
  have hout := run_outcome env amountIn w (env.route.length + 4) (idle w) (inv_idle w)
    (by simp [stepsLeft, idle])
  refine ⟨hout, hend.rolledBack_world, ?_, fun n => (hinv n).rolledBack_world, ?_⟩
  · intro cause hc
    have hs := hend.rolledBack_iff.2 ⟨cause, hc⟩
    exact ⟨hs, hend.rolledBack_world hs⟩
  · intro hw
    obtain ⟨o, ho⟩ := hout
    cases o with
    | Success profit => exact hend.committed_iff.2 ⟨profit, ho⟩
    | Rejected reason => exact absurd (hend.idle_world (hend.rejected_idle reason ho)) hw
    | Reverted cause =>
      exact absurd (hend.rolledBack_world (hend.rolledBack_iff.2 ⟨cause, ho⟩)) hw

/-- An attempt whose second hop breaches its floor ends in `RolledBack` on the
state it began with, although the first swap had changed the state. -/
theorem all_or_nothing_witness :
    (executeArbitrage slippingEnvironment fundedWorld "WETH" "USDC" 1000 0).state = .RolledBack ∧
    (executeArbitrage slippingEnvironment fundedWorld "WETH" "USDC" 1000 0).outcome
      = some (.Reverted .SlippageExceeded) ∧
    (run slippingEnvironment 1000 3 (idle fundedWorld)).world ≠ fundedWorld ∧
    (executeArbitrage slippingEnvironment fundedWorld "WETH" "USDC" 1000 0).world = fundedWorld :=
  ⟨by decide, by decide, by decide,
    (all_or_nothing slippingEnvironment fundedWorld "WETH" "USDC" 1000 0).2.1 (by decide)⟩

/-- C3: for a tolerance below 10000 basis points the floor is the integer
quotient of `amountOutExpected * (10000 - toleranceBps)` by 10000, never
rounded up; with the 50 basis points the deploy script passes it is 995 for
1000 and 1791 * 10^6 for the 1800 * 10^6 of the interaction script. -/
theorem slippage_floor (amountOutExpected toleranceBps : Nat) (h : toleranceBps < 10000) :
    (minimumAcceptable amountOutExpected toleranceBps : Int) * 10000
      ≤ (amountOutExpected : Int) * (10000 - (toleranceBps : Int)) ∧
    (amountOutExpected : Int) * (10000 - (toleranceBps : Int))
      < ((minimumAcceptable amountOutExpected toleranceBps : Int) + 1) * 10000 ∧
    (∀ deployer, (DeployFlashloan.deployArgs deployer)[5]? = some (.num 50)) ∧
    minimumAcceptable 1000 50 = 995 ∧
    (∀ minAmountOut, parseUnits "1800" 6 = some minAmountOut →
      minimumAcceptable minAmountOut 50 = 1791 * 10 ^ 6) := by
  have hx : (amountOutExpected : Int) * (10000 - (toleranceBps : Int))
      = ((amountOutExpected * (10000 - toleranceBps) : Nat) : Int) := by
    push_cast [Nat.cast_sub h.le]
    rfl
  rw [hx]
  unfold minimumAcceptable
  generalize amountOutExpected * (10000 - toleranceBps) = x
  refine ⟨by omega, by omega, fun _ => rfl, by decide, ?_⟩
  intro minAmountOut hm
  rw [parseUnits_1800] at hm
  cases hm
  decide

/-- The floor at 20 basis points of tolerance for an expected 12345 units. -/
theorem slippage_floor_witness :
    (minimumAcceptable 12345 20 : Int) * 10000 ≤ (12345 : Int) * (10000 - (20 : Int)) ∧
    (12345 : Int) * (10000 - (20 : Int)) < ((minimumAcceptable 12345 20 : Int) + 1) * 10000 :=
  ⟨(slippage_floor 12345 20 (by decide)).1, (slippage_floor 12345 20 (by decide)).2.1⟩

end ArbitrageExecutor

end Flash2
